import Mathlib

/-!
Verification development for the EFStats/reg2025 registration-statistics
script (`src/plots.py`).  The script reads a JSON-Lines log of
registration snapshots, reshapes the status/sponsor dictionary columns
into per-status count columns, computes a day-wise aggregate and simple
rolling deltas, and renders a four-panel SVG figure.

The embedding below models the data pipeline shallowly:
* a JSON dictionary is an association list `List (String × Int)`;
* a dataframe is a `List` of row structures;
* `sys.exit` on malformed input is an `Except String` error;
* the pandas timestamp is a record carrying the calendar date fields
  (used by `strftime` in `daywise`) and the epoch-nanosecond value
  (used by `astype(int)` in the check-in-rate computation).
-/

/-- A JSON object with integer values, as an association list.
`dget d k` models Python's `d.get(k, 0)`: the value at the first
occurrence of key `k`, or `0` when the key is missing. -/
def dget (d : List (String × Int)) (k : String) : Int :=
  match d.find? (fun kv => kv.1 == k) with
  | some kv => kv.2
  | none => 0

/-- `parse_status_dict` from `plots.py`: parse a single registration
status dictionary; missing values are set to zero.  The Python function
returns a 5-tuple, modelled as a list of the five counts in order
(new, approved, partially paid, paid, checked in). -/
def parse_status_dict (status_dict : List (String × Int)) : List Int :=
  [dget status_dict ("new"),
   dget status_dict ("approved"),
   dget status_dict ("partially paid"),
   dget status_dict ("paid"),
   dget status_dict ("checked in")]

/-- `parse_sponsor_dict` from `plots.py`: parse a single sponsor status
dictionary; missing values are set to zero.  Returns the 3-tuple
(normal, sponsor, supersponsor) as a list. -/
def parse_sponsor_dict (sponsor_dict : List (String × Int)) : List Int :=
  [dget sponsor_dict ("normal"),
   dget sponsor_dict ("sponsor"),
   dget sponsor_dict ("supersponsor")]

/-- `split_tuplecol` from `plots.py`, restricted to the tuple column it
operates on.  `col` is the column of tuples, `ncols` the number of
requested output columns and `incol` the column name used in the error
message.  The sanity check `all(df[incol].apply(len) == len(outcols))`
aborts the process (`sys.exit`, modelled by `Except.error`) when some
element's length differs from `ncols`; otherwise the tuple elements
become the output columns, given here row-wise. -/
def split_tuplecol (incol : String) (col : List (List Int)) (ncols : Nat) :
    Except String (List (List Int)) :=
  if col.all (fun x => x.length == ncols) then
    Except.ok (col.map (fun x => (List.range ncols).map (fun i => x.getD i 0)))
  else
    Except.error ("split.tuplecol: Malformed entry in column " ++ incol ++ ".")

/-- A pandas timestamp: the calendar date fields used by
`strftime('%m/%d/%Y')` together with the epoch-nanosecond integer
produced by `astype(int)`. -/
structure Timestamp where
  year : Nat
  month : Nat
  day : Nat
  epochNanos : Int
deriving DecidableEq, Repr, Inhabited

/-- One raw JSON-Lines record: the four fields the script consumes plus
any further fields (`extra`), which `read_parse_input` drops with
`df.loc[:, [...]]`. -/
structure RawRow where
  currentDateTimeUtc : Timestamp
  totalCount : Int
  status : List (String × Int)
  sponsor : List (String × Int)
  extra : List (String × Int)
deriving DecidableEq, Repr, Inhabited

/-- One row of the parsed dataframe returned by `read_parse_input`:
timestamp, total count, the five status counts and the three sponsor
counts.  The Python column named `partial` is the field `partlyPaid`. -/
structure ParsedRow where
  currentDateTimeUtc : Timestamp
  totalCount : Int
  new : Int
  approved : Int
  partlyPaid : Int
  paid : Int
  checkedin : Int
  normal : Int
  sponsor : Int
  supersponsor : Int
deriving DecidableEq, Repr, Inhabited

/-- `read_parse_input` from `plots.py`.  The argument is the result of
`pd.read_json(filename, lines=True)`: `Except.error e` when the file is
unparseable (pandas raises `ValueError e`), in which case the script
calls `sys.exit` with a message; otherwise the list of raw rows.  The
pipeline keeps the four needed columns, applies the two dictionary
parsers, and splits both tuple columns via `split_tuplecol`. -/
def read_parse_input (parsed : Except String (List RawRow)) :
    Except String (List ParsedRow) :=
  match parsed with
  | Except.error e =>
      Except.error ("read_parse_input: Error while loading source data: " ++ e)
  | Except.ok rows =>
      match split_tuplecol ("Status")
          (rows.map (fun r => parse_status_dict r.status)) 5 with
      | Except.error e => Except.error e
      | Except.ok statusCols =>
          match split_tuplecol ("Sponsor")
              (rows.map (fun r => parse_sponsor_dict r.sponsor)) 3 with
          | Except.error e => Except.error e
          | Except.ok sponsorCols =>
              Except.ok ((rows.zip (statusCols.zip sponsorCols)).map
                (fun rssp =>
                  { currentDateTimeUtc := rssp.1.currentDateTimeUtc
                    totalCount := rssp.1.totalCount
                    new := rssp.2.1.getD 0 0
                    approved := rssp.2.1.getD 1 0
                    partlyPaid := rssp.2.1.getD 2 0
                    paid := rssp.2.1.getD 3 0
                    checkedin := rssp.2.1.getD 4 0
                    normal := rssp.2.2.getD 0 0
                    sponsor := rssp.2.2.getD 1 0
                    supersponsor := rssp.2.2.getD 2 0 }))

/-- The row produced for one raw row by the `read_parse_input` pipeline:
the four kept fields with the status/sponsor dictionaries parsed,
missing keys defaulting to `0`.  (Derived form, proved equal to the
pipeline's output below.) -/
def parsedOfRaw (r : RawRow) : ParsedRow :=
  { currentDateTimeUtc := r.currentDateTimeUtc
    totalCount := r.totalCount
    new := dget r.status ("new")
    approved := dget r.status ("approved")
    partlyPaid := dget r.status ("partially paid")
    paid := dget r.status ("paid")
    checkedin := dget r.status ("checked in")
    normal := dget r.sponsor ("normal")
    sponsor := dget r.sponsor ("sponsor")
    supersponsor := dget r.sponsor ("supersponsor") }

/-- The four fields of a raw JSON-Lines record that `read_parse_input`
keeps (`df.loc[:, ["CurrentDateTimeUtc", "TotalCount", "Status",
"Sponsor"]]`). -/
structure CoreFields where
  currentDateTimeUtc : Timestamp
  totalCount : Int
  status : List (String × Int)
  sponsor : List (String × Int)
deriving DecidableEq, Repr

/-- Projection of a raw row onto the four fields the script consumes. -/
def RawRow.core (r : RawRow) : CoreFields :=
  { currentDateTimeUtc := r.currentDateTimeUtc
    totalCount := r.totalCount
    status := r.status
    sponsor := r.sponsor }

/-- A calendar date, standing for the string
`strftime('%m/%d/%Y')` that `daywise` groups by.  On the dates a pandas
nanosecond timestamp can hold (4-digit year, 2-digit month and day) the
formatter is injective and its lexicographic string order is exactly the
(month, day, year) lexicographic order, so grouping and sorting by the
triple is faithful to grouping and sorting by the string. -/
structure Date where
  month : Nat
  day : Nat
  year : Nat
deriving DecidableEq, Repr, Inhabited

/-- The `%m/%d/%Y` order on dates: lexicographic in (month, day, year),
matching the string order of the zero-padded format. -/
def Date.leb (a b : Date) : Bool :=
  if a.month < b.month then true
  else if b.month < a.month then false
  else if a.day < b.day then true
  else if b.day < a.day then false
  else a.year ≤ b.year

/-- The calendar date of a timestamp, i.e. its `strftime('%m/%d/%Y')`
group key. -/
def dateOf (t : Timestamp) : Date :=
  { month := t.month, day := t.day, year := t.year }

/-- One row of the dataframe returned by `daywise`: the `Date` group
key, the aggregated `TotalCount` and the positional day index `idx`. -/
structure DayRow where
  date : Date
  totalCount : Int
  idx : Int
deriving DecidableEq, Repr, Inhabited

/-- The group keys of `out.groupby("Date")` in `daywise`: the distinct
calendar dates of the dataframe, in the sorted order pandas uses for
group keys. -/
def daywiseKeys (df : List ParsedRow) : List Date :=
  List.insertionSort (fun a b => Date.leb a b = true)
    ((df.map (fun r => dateOf r.currentDateTimeUtc)).dedup)

/-- `daywise` from `plots.py`: add a `Date` column via `strftime`,
group by it (pandas sorts the group keys), take the `last` row of each
group, keep `Date` and `TotalCount`, and set `idx` to
`arange(0, len(out)) - offset`. -/
def daywise (df : List ParsedRow) (offset : Int) : List DayRow :=
  (daywiseKeys df).enum.map (fun ik =>
    { date := ik.2
      totalCount :=
        match (df.filter
            (fun r => dateOf r.currentDateTimeUtc == ik.2)).getLast? with
        | some r => r.totalCount
        | none => 0
      idx := (ik.1 : Int) - offset })

/-- Day number of a calendar date (days since 1970-01-01, Gregorian),
for `1 ≤ y`: the standard civil-calendar day count.  Used to state what
a calendar-day offset between two dates is. -/
def daysFromCivil (y m d : Nat) : Int :=
  let y2 := if m ≤ 2 then y - 1 else y
  let era := y2 / 400
  let yoe := y2 % 400
  let mp := (m + 9) % 12
  let doy := (153 * mp + 2) / 5 + d - 1
  let doe := yoe * 365 + yoe / 4 - yoe / 100 + doy
  ((era * 146097 + doe : Nat) : Int) - 719468

namespace makeplots

/-- The `totals` column added by `makeplots`:
`df["totals"] = df.new + df.approved + df.partial + df.paid + df.checkedin`. -/
def totals (df : List ParsedRow) : List Int :=
  df.map (fun r => r.new + r.approved + r.partlyPaid + r.paid + r.checkedin)

/-- `df.delta_checkins = df.checkedin.rolling(window=2).apply(lambda x:
x.iloc[1] - x.iloc[0])`: the rolling window of size 2 yields NaN
(`none`) at row 0 and the difference of consecutive `checkedin` values
afterwards. -/
def delta_checkins (df : List ParsedRow) : List (Option Int) :=
  (List.range df.length).map (fun i =>
    if i = 0 then none
    else some ((df.map (fun r => r.checkedin)).getD i 0 -
               (df.map (fun r => r.checkedin)).getD (i - 1) 0))

/-- The `CurrentDateTimeUtc.astype(int)` column: epoch nanoseconds. -/
def tsNanos (df : List ParsedRow) : List Int :=
  df.map (fun r => r.currentDateTimeUtc.epochNanos)

/-- `df.delta_min = df.CurrentDateTimeUtc.astype(int).rolling(window=2)
.apply(lambda x: x.iloc[1] - x.iloc[0]) / 1e9 / 60`: NaN (`none`) at
row 0, elapsed minutes between consecutive timestamps afterwards. -/
def delta_min (df : List ParsedRow) : List (Option ℚ) :=
  (List.range df.length).map (fun i =>
    if i = 0 then none
    else some ((((tsNanos df).getD i 0 - (tsNanos df).getD (i - 1) 0 : Int) : ℚ)
                 / 1000000000 / 60))

/-- `df.checkinrate = df.delta_checkins / df.delta_min`: elementwise
division of the two rolling series; NaN propagates (`none`). -/
def checkinrate (df : List ParsedRow) : List (Option ℚ) :=
  List.zipWith (fun a b =>
    match a, b with
    | some x, some y => some ((x : ℚ) / y)
    | _, _ => none) (delta_checkins df) (delta_min df)

end makeplots

/-- The elapsed time in minutes between two epoch-nanosecond
timestamps: their difference divided by the 60·10⁹ nanoseconds of a
minute. -/
def minutesBetween (t0 t1 : Int) : ℚ :=
  ((t1 - t0 : Int) : ℚ) / 60000000000

/-- An externally visible action performed by `makeplots`: drawing into
the in-memory figure, styling an axis, annotating, or writing a file. -/
inductive Effect where
  | draw : String → Effect
  | style : String → Effect
  | annotate : String → Effect
  | writeFile : String → Effect
deriving DecidableEq, Repr

/-- The path written by an effect, if it writes a file. -/
def Effect.writtenPath : Effect → Option String
  | Effect.writeFile p => some p
  | _ => none

/-- The sequence of externally visible actions `makeplots` performs, in
source order.  The body is straight-line (no conditionals), so the
sequence is the same on every successful run; only `plt.savefig` at the
end touches the file system. -/
def makeplots_effects : List Effect :=
  [Effect.style ("subplots 2x2, subplots_adjust, hide all axes"),
   Effect.style ("left plot: set_visible"),
   Effect.draw ("left plot: checkedin vs CurrentDateTimeUtc"),
   Effect.draw ("left plot: totals vs CurrentDateTimeUtc"),
   Effect.draw ("left plot: paid+partial+checkedin vs CurrentDateTimeUtc"),
   Effect.style ("left plot: x label, ticks, tick labels, tick params, xlim"),
   Effect.style ("left plot: y label, ticks, gridlines, tick params, ylim"),
   Effect.style ("left plot: legend"),
   Effect.style ("right plot: set_visible"),
   Effect.draw ("right plot: barh normal"),
   Effect.draw ("right plot: barh sponsor"),
   Effect.draw ("right plot: barh supersponsor"),
   Effect.style ("right plot: x axis, y axis, legend"),
   Effect.style ("bottom-left plot: set_visible"),
   Effect.draw ("bottom-left plot: daywise 2025 TotalCount vs idx"),
   Effect.draw ("bottom-left plot: daywise 2024 TotalCount vs idx"),
   Effect.draw ("bottom-left plot: vlines at 200"),
   Effect.style ("bottom-left plot: x axis, y axis, legend"),
   Effect.style ("bottom-right plot: set_visible"),
   Effect.draw ("bottom-right plot: checkedin vs CurrentDateTimeUtc"),
   Effect.style ("bottom-right plot: x axis, y axis, gridlines"),
   Effect.style ("bottom-right plot: twin y axis"),
   Effect.draw ("bottom-right plot: checkinrate vs CurrentDateTimeUtc"),
   Effect.annotate ("last-update annotation"),
   Effect.annotate ("left plot: totals annotation"),
   Effect.annotate ("right plot: sponsor totals annotation"),
   Effect.writeFile ("./out/Fig1.svg")]

/-- A dataframe value on the Python heap during `daywise`: the rows
plus the `Date` column the function adds to its working copy. -/
structure Frame where
  rows : List ParsedRow
  dateCol : List Date := []
deriving DecidableEq, Repr, Inhabited

/-- Heap-level model of `daywise`: the store is the list of live
dataframes, `ref` the index of the argument.  `out = df.copy()`
allocates a fresh frame at the end of the store; `out["Date"] = ...`
mutates only that copy; the `groupby ... reset_index ... loc` chain
rebinds the local name to a fresh value, which is returned. -/
def daywiseProg (store : List Frame) (ref : Nat) (offset : Int) :
    List Frame × List DayRow :=
  let df := store.getD ref default
  let outRef := store.length
  let store1 := store ++ [df]
  let store2 := store1.set outRef
    { df with dateCol := df.rows.map (fun r => dateOf r.currentDateTimeUtc) }
  (store2, daywise df.rows offset)

/-- The parsed row as a function of the four kept fields alone; used to
show the pipeline ignores every other input field. -/
def parsedOfCore (c : CoreFields) : ParsedRow :=
  { currentDateTimeUtc := c.currentDateTimeUtc
    totalCount := c.totalCount
    new := dget c.status ("new")
    approved := dget c.status ("approved")
    partlyPaid := dget c.status ("partially paid")
    paid := dget c.status ("paid")
    checkedin := dget c.status ("checked in")
    normal := dget c.sponsor ("normal")
    sponsor := dget c.sponsor ("sponsor")
    supersponsor := dget c.sponsor ("supersponsor") }

/-- A parsed snapshot row with the given date, epoch nanoseconds, total
and status counts (sponsor-tier counts zero); concrete test data. -/
def sampleRow (y m d : Nat) (nanos tot nw ap pp pd ci : Int) : ParsedRow :=
  { currentDateTimeUtc := { year := y, month := m, day := d, epochNanos := nanos }
    totalCount := tot
    new := nw
    approved := ap
    partlyPaid := pp
    paid := pd
    checkedin := ci
    normal := 0
    sponsor := 0
    supersponsor := 0 }

/-- Concrete log: two snapshots on 2025-01-01 and one on 2025-01-03.
The date 2025-01-02 has no snapshot, so the log has a calendar gap. -/
def sampleDf : List ParsedRow :=
  [sampleRow 2025 1 1 100 10 1 2 3 4 0,
   sampleRow 2025 1 1 200 12 2 2 3 4 1,
   sampleRow 2025 1 3 300 20 5 5 5 4 1]

/-- The day-wise row for 2025-01-01 in `daywise sampleDf 3`: the last
snapshot of that date has `TotalCount` 12, and the row index is 0 with
offset 3. -/
def dayRowJan1 : DayRow :=
  { date := { month := 1, day := 1, year := 2025 }, totalCount := 12, idx := -3 }

/-- A raw input row carrying an extra field beyond the four the script
reads. -/
def rawA : RawRow :=
  { currentDateTimeUtc := { year := 2025, month := 1, day := 1, epochNanos := 100 }
    totalCount := 5
    status := [("new", 5)]
    sponsor := [("normal", 5)]
    extra := [("RequestId", 1)] }

/-- The same raw row as `rawA` with the extra field removed. -/
def rawB : RawRow :=
  { currentDateTimeUtc := { year := 2025, month := 1, day := 1, epochNanos := 100 }
    totalCount := 5
    status := [("new", 5)]
    sponsor := [("normal", 5)]
    extra := [] }

/-- A raw input row whose status dictionary is malformed: it misses all
five expected keys and carries an unexpected one; the sponsor
dictionary is empty. -/
def malformedLog : List RawRow :=
  [{ currentDateTimeUtc := { year := 2025, month := 1, day := 5, epochNanos := 0 }
     totalCount := 7
     status := [("bogus", 3)]
     sponsor := []
     extra := [] }]

/-- A one-dataframe heap for exercising `daywiseProg`. -/
def sampleStore : List Frame :=
  [{ rows := sampleDf }]

/-! ### Helper lemmas -/

lemma split_tuplecol_ok (incol : String) (col : List (List Int)) (ncols : Nat)
    (h : ∀ x ∈ col, x.length = ncols) :
    split_tuplecol incol col ncols =
      Except.ok (col.map (fun x => (List.range ncols).map (fun i => x.getD i 0))) := by
  unfold split_tuplecol
  rw [if_pos]
  rw [List.all_eq_true]
  intro x hx
  simpa using h x hx

lemma zip_map_map_eq {α β γ δ : Type} (f : α → β) (g : α → γ) (k : α × β × γ → δ)
    (l : List α) :
    (l.zip ((l.map f).zip (l.map g))).map k = l.map (fun a => k (a, f a, g a)) := by
  induction l with
  | nil => rfl
  | cons a as ih => simp only [List.map_cons, List.zip_cons_cons]; rw [ih]

lemma read_parse_ok (rows : List RawRow) :
    read_parse_input (Except.ok rows) = Except.ok (rows.map parsedOfRaw) := by
  have hs := split_tuplecol_ok ("Status")
      (rows.map (fun r => parse_status_dict r.status)) 5
      (by intro x hx; obtain ⟨r, _, rfl⟩ := List.mem_map.1 hx; rfl)
  have hp := split_tuplecol_ok ("Sponsor")
      (rows.map (fun r => parse_sponsor_dict r.sponsor)) 3
      (by intro x hx; obtain ⟨r, _, rfl⟩ := List.mem_map.1 hx; rfl)
  simp only [read_parse_input, hs, hp]
  simp only [List.map_map]
  rw [zip_map_map_eq]
  rfl

lemma countP_enumFrom {α : Type} (q : α → Bool) :
    ∀ (l : List α) (n : Nat),
      List.countP (fun ik : Nat × α => q ik.2) (List.enumFrom n l) =
        List.countP q l := by
  intro l
  induction l with
  | nil => intro n; rfl
  | cons a as ih => intro n; simp [List.enumFrom, List.countP_cons, ih]

lemma countP_enum_snd {α : Type} (q : α → Bool) (l : List α) :
    List.countP (fun ik : Nat × α => q ik.2) l.enum = List.countP q l := by
  simpa [List.enum] using countP_enumFrom q l 0

lemma snd_mem_enum {α : Type} {ik : Nat × α} {l : List α} (h : ik ∈ l.enum) :
    ik.2 ∈ l := by
  obtain ⟨i, x⟩ := ik
  obtain ⟨-, -, hx⟩ := List.mem_enumFrom (by simpa [List.enum] using h)
  show x ∈ l
  rw [hx]
  exact List.getElem_mem _

lemma getD_map_field {β : Type} (df : List ParsedRow) (f : ParsedRow → β)
    (j : Nat) (hj : j < df.length) (d0 : β) :
    (df.map f).getD j d0 = f (df.getD j default) := by
  rw [List.getD_eq_getElem?_getD, List.getElem?_map, List.getElem?_eq_getElem hj,
    List.getD_eq_getElem?_getD, List.getElem?_eq_getElem hj]
  rfl

lemma checkinrate_eq_map (df : List ParsedRow) :
    makeplots.checkinrate df = (List.range df.length).map (fun j =>
      if j = 0 then none
      else some ((((df.map (fun r => r.checkedin)).getD j 0 -
            (df.map (fun r => r.checkedin)).getD (j - 1) 0 : Int) : ℚ) /
          ((((makeplots.tsNanos df).getD j 0 -
              (makeplots.tsNanos df).getD (j - 1) 0 : Int) : ℚ)
            / 1000000000 / 60))) := by
  unfold makeplots.checkinrate makeplots.delta_checkins makeplots.delta_min
  rw [List.zipWith_map_left, List.zipWith_map_right, List.zipWith_same]
  apply List.map_congr_left
  intro j hj
  by_cases hj0 : j = 0
  · simp [hj0]
  · simp [hj0]

/-! ### Claim theorems -/

/-- C1 (counterexample): a log row whose `Status` dictionary misses all
five expected keys and carries an unexpected one does not terminate
processing; it is converted into zero-filled counts that flow into the
parsed output, contradicting the claim. -/
theorem claim_C1_counterexample :
    read_parse_input (Except.ok malformedLog) =
      Except.ok
        [{ currentDateTimeUtc := { year := 2025, month := 1, day := 5, epochNanos := 0 }
           totalCount := 7
           new := 0, approved := 0, partlyPaid := 0, paid := 0, checkedin := 0
           normal := 0, sponsor := 0, supersponsor := 0 }] := by
  rfl

/-- C1 (amended): malformed status/sponsor dictionaries never terminate
processing.  For every input, the parse pipeline succeeds and each
row's counts are the dictionary values of the expected keys, with
missing keys silently defaulting to zero — so zero-filled counts from
malformed dictionaries do flow into the output. -/
theorem claim_C1_amended_thm (rows : List RawRow) :
    read_parse_input (Except.ok rows) = Except.ok (rows.map parsedOfRaw) :=
  read_parse_ok rows

/-- C2: `daywise` has exactly one row per distinct calendar date
occurring in the input, and each row's `TotalCount` is that of the last
snapshot observed for its date (the last row of the filtered input). -/
theorem claim_C2_daywise_one_row_per_date (df : List ParsedRow) (offset : Int) :
    (∀ d : Date,
        (daywise df offset).countP (fun row => row.date == d) =
          if d ∈ df.map (fun r => dateOf r.currentDateTimeUtc) then 1 else 0)
    ∧ ∀ row ∈ daywise df offset,
        ∃ s, (df.filter
              (fun r => dateOf r.currentDateTimeUtc == row.date)).getLast?
            = some s
          ∧ row.totalCount = s.totalCount := by
  constructor
  · intro d
    unfold daywise
    rw [List.countP_map]
    calc List.countP _ (daywiseKeys df).enum
        = List.countP (fun k : Date => k == d) (daywiseKeys df) :=
          countP_enum_snd (fun k : Date => k == d) (daywiseKeys df)
      _ = List.count d (daywiseKeys df) := rfl
      _ = List.count d ((df.map (fun r => dateOf r.currentDateTimeUtc)).dedup) :=
          (List.perm_insertionSort _ _).count_eq d
      _ = if d ∈ df.map (fun r => dateOf r.currentDateTimeUtc) then 1 else 0 :=
          List.count_dedup _ d
  · intro row hrow
    unfold daywise at hrow
    obtain ⟨ik, hik, rfl⟩ := List.mem_map.1 hrow
    have hd : ik.2 ∈ daywiseKeys df := snd_mem_enum hik
    have hd2 : ik.2 ∈ df.map (fun r => dateOf r.currentDateTimeUtc) := by
      unfold daywiseKeys at hd
      exact List.mem_dedup.1 ((List.perm_insertionSort _ _).mem_iff.1 hd)
    obtain ⟨r, hr, hrd⟩ := List.mem_map.1 hd2
    have hmem : r ∈ df.filter
        (fun r => dateOf r.currentDateTimeUtc == ik.2) :=
      List.mem_filter.2 ⟨hr, by simp [hrd]⟩
    cases hlast : (df.filter
        (fun r => dateOf r.currentDateTimeUtc == ik.2)).getLast? with
    | none =>
        rw [List.getLast?_eq_none_iff] at hlast
        rw [hlast] at hmem
        exact absurd hmem (List.not_mem_nil r)
    | some s => exact ⟨s, rfl, rfl⟩

/-- C2 (witness): the 2025-01-01 row of `daywise sampleDf 3` carries
the `TotalCount` of the last 2025-01-01 snapshot. -/
theorem claim_C2_witness :
    dayRowJan1 ∈ daywise sampleDf 3
    ∧ ∃ s, (sampleDf.filter
          (fun r => dateOf r.currentDateTimeUtc == dayRowJan1.date)).getLast?
        = some s
      ∧ dayRowJan1.totalCount = s.totalCount :=
  ⟨by decide,
   (claim_C2_daywise_one_row_per_date sampleDf 3).2 dayRowJan1 (by decide)⟩

/-- C3 (counterexample): on a log with snapshots on 2025-01-01 and
2025-01-03 (no snapshot on 2025-01-02), the 2025-01-03 row of
`daywise ... 0` carries `idx = 1`, whereas the calendar-day offset from
the reference date (the date whose idx is 0, i.e. 2025-01-01) is 2:
`idx` counts rows, not calendar days. -/
theorem claim_C3_counterexample :
    (daywise sampleDf 0).map (fun r => (r.date, r.idx)) =
      [({ month := 1, day := 1, year := 2025 }, 0),
       ({ month := 1, day := 3, year := 2025 }, 1)]
    ∧ daysFromCivil 2025 1 3 - daysFromCivil 2025 1 1 = 2
    ∧ ((daywise sampleDf 0).getD 1 default).idx ≠
        daysFromCivil 2025 1 3 - daysFromCivil 2025 1 1 := by
  decide

/-- C3 (amended): each row of `daywise df offset` carries
`idx = position - offset` where `position` is the row's index in the
sorted list of distinct dates; this equals a calendar-day offset only
when the observed dates are consecutive. -/
theorem claim_C3_amended_idx_is_position (df : List ParsedRow) (offset : Int)
    (i : Nat) (h : i < (daywise df offset).length) :
    ((daywise df offset).get ⟨i, h⟩).idx = (i : Int) - offset := by
  unfold daywise at *
  simp only [List.get_eq_getElem, List.getElem_map, List.getElem_enum]

/-- C3 (witness): the first row of `daywise sampleDf 3` has
`idx = 0 - 3`. -/
theorem claim_C3_witness :
    0 < (daywise sampleDf 3).length
    ∧ ((daywise sampleDf 3).get ⟨0, by decide⟩).idx = (0 : Int) - 3 :=
  ⟨by decide, claim_C3_amended_idx_is_position sampleDf 3 0 (by decide)⟩

/-- C4: an unparseable JSON-Lines input makes `read_parse_input` abort
with a message (no partial result is produced, the error is the only
outcome), and the arity check of `split_tuplecol` aborts the process
exactly when some element of the tuple column has a length different
from the number of requested output columns. -/
theorem claim_C4_abort_on_malformed :
    (∀ msg : String, read_parse_input (Except.error msg) =
        Except.error ("read_parse_input: Error while loading source data: " ++ msg))
    ∧ ∀ (incol : String) (col : List (List Int)) (ncols : Nat),
        (∃ e, split_tuplecol incol col ncols = Except.error e) ↔
          ∃ x ∈ col, x.length ≠ ncols := by
  refine ⟨fun msg => rfl, fun incol col ncols => ?_⟩
  by_cases h : col.all (fun x => x.length == ncols) = true
  · simp only [split_tuplecol, if_pos h]
    rw [List.all_eq_true] at h
    constructor
    · rintro ⟨e, he⟩; exact (Except.noConfusion he)
    · rintro ⟨x, hx, hne⟩
      exact (hne (by simpa using h x hx)).elim
  · simp only [split_tuplecol, if_neg h]
    rw [List.all_eq_true] at h
    push_neg at h
    constructor
    · rintro -
      obtain ⟨x, hx, hne⟩ := h
      exact ⟨x, hx, by simpa using hne⟩
    · rintro -
      exact ⟨_, rfl⟩

/-- C4 (witness): a concrete parse failure aborts with the script's
message, and a concrete wrong-arity column makes the length check
abort. -/
theorem claim_C4_witness :
    read_parse_input (Except.error ("Expected object or value")) =
      Except.error ("read_parse_input: Error while loading source data: "
        ++ "Expected object or value")
    ∧ ∃ e, split_tuplecol ("Status") [[1, 2]] 5 = Except.error e :=
  ⟨claim_C4_abort_on_malformed.1 ("Expected object or value"),
   (claim_C4_abort_on_malformed.2 ("Status") [[1, 2]] 5).2
     ⟨[1, 2], by decide, by decide⟩⟩

/-- C5: the derived `totals` column equals, row by row, the sum of the
five status sub-counts new + approved + partial + paid + checkedin. -/
theorem claim_C5_totals_is_sum (df : List ParsedRow) (i : Nat) (h : i < df.length) :
    (makeplots.totals df).getD i 0 =
      (df.getD i default).new + (df.getD i default).approved +
        (df.getD i default).partlyPaid + (df.getD i default).paid +
        (df.getD i default).checkedin := by
  simp only [makeplots.totals, List.getD_eq_getElem?_getD, List.getElem?_map,
    List.getElem?_eq_getElem h]
  rfl

/-- C5 (witness): the first row of `sampleDf`. -/
theorem claim_C5_witness :
    0 < sampleDf.length
    ∧ (makeplots.totals sampleDf).getD 0 0 =
        (sampleDf.getD 0 default).new + (sampleDf.getD 0 default).approved +
          (sampleDf.getD 0 default).partlyPaid + (sampleDf.getD 0 default).paid +
          (sampleDf.getD 0 default).checkedin :=
  ⟨by decide, claim_C5_totals_is_sum sampleDf 0 (by decide)⟩

/-- C6: for every dataframe and every row index `i ≥ 1` (with the
claim's precondition that consecutive timestamps are distinct), the
rolling check-in rate at row `i` equals the difference of consecutive
`checkedin` counts divided by the elapsed time in minutes between
timestamps `i-1` and `i`; and the rate at row 0 is NaN (`none`), the
window of size 2 having no predecessor there. -/
theorem claim_C6_checkin_rate (df : List ParsedRow) (i : Nat) (h1 : 1 ≤ i)
    (h2 : i < df.length)
    (hne : (df.getD i default).currentDateTimeUtc.epochNanos ≠
      (df.getD (i - 1) default).currentDateTimeUtc.epochNanos) :
    (makeplots.checkinrate df).getD i none =
      some ((((df.getD i default).checkedin -
          (df.getD (i - 1) default).checkedin : Int) : ℚ) /
        minutesBetween ((df.getD (i - 1) default).currentDateTimeUtc.epochNanos)
          ((df.getD i default).currentDateTimeUtc.epochNanos))
    ∧ (makeplots.checkinrate df).getD 0 none = none := by
  have hi1 : i - 1 < df.length := by omega
  constructor
  · rw [checkinrate_eq_map, List.getD_eq_getElem?_getD, List.getElem?_map,
      List.getElem?_range h2]
    have hi0 : ¬ i = 0 := by omega
    rw [Option.map_some', Option.getD_some, if_neg hi0]
    rw [getD_map_field df (fun r => r.checkedin) i h2,
      getD_map_field df (fun r => r.checkedin) (i - 1) hi1]
    unfold makeplots.tsNanos
    rw [getD_map_field df (fun r => r.currentDateTimeUtc.epochNanos) i h2,
      getD_map_field df (fun r => r.currentDateTimeUtc.epochNanos) (i - 1) hi1]
    unfold minutesBetween
    rw [div_div]
    norm_num
  · rw [checkinrate_eq_map]
    rcases Nat.eq_zero_or_pos df.length with h0 | h0
    · simp [h0]
    · rw [List.getD_eq_getElem?_getD, List.getElem?_map, List.getElem?_range h0]
      simp

/-- C6 (witness): rows 0 and 1 of `sampleDf`, whose timestamps differ
by 100 nanoseconds. -/
theorem claim_C6_witness :
    (1 ≤ 1 ∧ 1 < sampleDf.length
      ∧ (sampleDf.getD 1 default).currentDateTimeUtc.epochNanos ≠
          (sampleDf.getD 0 default).currentDateTimeUtc.epochNanos)
    ∧ ((makeplots.checkinrate sampleDf).getD 1 none =
        some ((((sampleDf.getD 1 default).checkedin -
            (sampleDf.getD 0 default).checkedin : Int) : ℚ) /
          minutesBetween
            ((sampleDf.getD 0 default).currentDateTimeUtc.epochNanos)
            ((sampleDf.getD 1 default).currentDateTimeUtc.epochNanos))
      ∧ (makeplots.checkinrate sampleDf).getD 0 none = none) :=
  ⟨⟨le_refl 1, by decide, by decide⟩,
   claim_C6_checkin_rate sampleDf 1 (le_refl 1) (by decide) (by decide)⟩

/-- C7: no raw-input field other than `CurrentDateTimeUtc`,
`TotalCount`, `Status` and `Sponsor` influences the parsed dataframe:
inputs agreeing row-wise on those four fields parse identically. -/
theorem claim_C7_only_four_fields_matter (rows1 rows2 : List RawRow)
    (h : rows1.map RawRow.core = rows2.map RawRow.core) :
    read_parse_input (Except.ok rows1) = read_parse_input (Except.ok rows2) := by
  rw [read_parse_ok, read_parse_ok]
  have h1 : rows1.map parsedOfRaw = (rows1.map RawRow.core).map parsedOfCore := by
    rw [List.map_map]; rfl
  have h2 : rows2.map parsedOfRaw = (rows2.map RawRow.core).map parsedOfCore := by
    rw [List.map_map]; rfl
  rw [h1, h2, h]

/-- C7 (witness): two one-row inputs differing only in an extra field
parse to the same dataframe. -/
theorem claim_C7_witness :
    [rawA].map RawRow.core = [rawB].map RawRow.core
    ∧ read_parse_input (Except.ok [rawA]) = read_parse_input (Except.ok [rawB]) :=
  ⟨by decide, claim_C7_only_four_fields_matter [rawA] [rawB] (by decide)⟩

/-- C8: the effect trace of `makeplots` writes exactly one file, the
SVG at the fixed path `./out/Fig1.svg`; every other action only draws
into the in-memory figure. -/
theorem claim_C8_single_output_file :
    makeplots_effects.filterMap Effect.writtenPath = [("./out/Fig1.svg")] := by
  rfl

/-- C9: `parse_status_dict` always returns 5 elements and
`parse_sponsor_dict` always returns 3, so the arity checks of the two
`split_tuplecol` calls in `read_parse_input` always pass and their
`sys.exit` branch is unreachable there. -/
theorem claim_C9_parsers_make_check_pass :
    ∀ (sd spd : List (String × Int)) (rows : List RawRow),
      (parse_status_dict sd).length = 5
      ∧ (parse_sponsor_dict spd).length = 3
      ∧ (∃ v, split_tuplecol ("Status")
            (rows.map (fun r => parse_status_dict r.status)) 5 = Except.ok v)
      ∧ ∃ v, split_tuplecol ("Sponsor")
            (rows.map (fun r => parse_sponsor_dict r.sponsor)) 3 = Except.ok v := by
  intro sd spd rows
  refine ⟨rfl, rfl, ⟨_, split_tuplecol_ok _ _ _ ?_⟩, ⟨_, split_tuplecol_ok _ _ _ ?_⟩⟩
  · intro x hx; obtain ⟨r, _, rfl⟩ := List.mem_map.1 hx; rfl
  · intro x hx; obtain ⟨r, _, rfl⟩ := List.mem_map.1 hx; rfl

/-- C10: `daywise` operates on a copy: in the heap model, every
dataframe live before the call — the argument included — is unchanged
afterwards, and the returned aggregate is a fresh value computed from
the argument's rows. -/
theorem claim_C10_daywise_no_mutation (store : List Frame) (ref : Nat)
    (offset : Int) (i : Nat) (hi : i < store.length) :
    (daywiseProg store ref offset).1.getD i default = store.getD i default
    ∧ (daywiseProg store ref offset).2 =
        daywise ((store.getD ref default).rows) offset := by
  refine ⟨?_, rfl⟩
  show ((store ++ [store.getD ref default]).set store.length _).getD i default
      = store.getD i default
  rw [List.getD_eq_getElem?_getD, List.getD_eq_getElem?_getD,
    List.getElem?_set_ne (by omega), List.getElem?_append]
  rw [if_pos hi, List.getD_eq_getElem?_getD]

/-- C10 (witness): a one-dataframe heap. -/
theorem claim_C10_witness :
    0 < sampleStore.length
    ∧ ((daywiseProg sampleStore 0 3).1.getD 0 default = sampleStore.getD 0 default
      ∧ (daywiseProg sampleStore 0 3).2 =
          daywise ((sampleStore.getD 0 default).rows) 3) :=
  ⟨by decide, claim_C10_daywise_no_mutation sampleStore 0 3 0 (by decide)⟩
